import Mathlib

/-!
Shallow embedding of the News-analyzer backend (Express server: RSS fetch /
dedup / retain pipeline, Groq sentiment annotation, per-category analysis
cache, and the GET /api/articles/:category handler), together with theorems
settling the specification claims about it.

Conventions of the embedding:
* timestamps are epoch milliseconds (`Nat`); the source stores ISO strings and
  compares them through `new Date(...)`, which is order-isomorphic;
* JS `undefined` for a missing JSON field is `Option.none`;
* sentiment scores are `ℚ` (the source works with JS numbers in [-1, 1]);
* the stable JS `Array.prototype.sort` is modelled by the stable
  `List.insertionSort` (any two stable sorts of the same total preorder agree);
* network effects are oracle parameters: a feed fetch outcome, the LLM
  annotation outcome per article, and the outcome of the awaited analysis.
-/

namespace NewsAnalyzer

/-- The fixed category taxonomy: the keys of `rawArticles` / `analysisCache`
(source lines 175-181, 207-213). -/
inductive Category
  | breaking
  | technology
  | business
  | science
  | health
deriving DecidableEq, Repr

/-- The key list Object.keys(rawArticles), in declaration order. -/
def allCategories : List Category :=
  [.breaking, .technology, .business, .science, .health]

/-- An article produced by the feed mapping in `fetchAllFeeds`
(source lines 268-275). -/
structure Article where
  category : Category
  title : String
  content : String
  url : String
  source : String
  timestamp : Nat
deriving DecidableEq, Repr

/-- Per-category raw-article state: one entry of `rawArticles`
(source lines 175-181). -/
structure CategoryState where
  articles : List Article
  isLoading : Bool
  lastError : Option String
deriving DecidableEq, Repr

/-- Initial `rawArticles`: empty list, not loading, no error, for every
category (source lines 175-181). -/
def initialRawArticles : Category → CategoryState :=
  fun _ => { articles := [], isLoading := false, lastError := none }

/-! ### Deduplication by url (source lines 291-293)

`Array.from(new Map(combined.map(article => [article.url, article])).values())`:
a JS `Map` keeps keys in first-insertion order and, for a repeated key, the
last value written. -/

/-- The keys of the `Map`, in first-insertion order. -/
def urlKeys : List Article → List String
  | [] => []
  | a :: rest => a.url :: (urlKeys rest).filter (fun u => u ≠ a.url)

/-- The value the `Map` ends up holding for key `u`: the last article of the
list with that url. -/
def lastWithUrl (l : List Article) (u : String) : Option Article :=
  (l.filter (fun a => a.url = u)).getLast?

/-- Model of Array.from(new Map(l.map(a => [a.url, a])).values()). -/
def dedupByUrl (l : List Article) : List Article :=
  (urlKeys l).filterMap (lastWithUrl l)

/-! ### Sorting and retention (source lines 295-298) -/

/-- The sort order of `(a, b) => new Date(b.timestamp) - new Date(a.timestamp)`:
`a` may come before `b` exactly when the comparator is `≤ 0`, i.e. timestamps
descending. -/
def tsDesc (a b : Article) : Prop := b.timestamp ≤ a.timestamp

instance : DecidableRel tsDesc :=
  fun a b => Nat.decLe b.timestamp a.timestamp

instance : IsTotal Article tsDesc :=
  ⟨fun a b => Nat.le_total b.timestamp a.timestamp⟩

instance : IsTrans Article tsDesc :=
  ⟨fun _ _ _ h1 h2 => Nat.le_trans h2 h1⟩

/-- The slice(0, 10) retention cap (source line 298). -/
def retainLimit : Nat := 10

/-- The message stored when every source of a category fails
(source line 304). -/
def fetchFailureMessage : String :=
  "Failed to fetch articles from any source for this category"

/-- The outcome of one feed for a cycle: `some items` when `fetchWithRetry`
eventually succeeded (`items` already mapped to articles, source lines
268-275), `none` when it threw after exhausting its retries. -/
abbrev FeedOutcome := Option (List Article)

/-- The allArticles accumulator of the per-feed loop (source lines 260-285):
each successful feed appends its mapped items, a failed feed contributes
nothing. -/
def collectFetched (outcomes : List FeedOutcome) : List Article :=
  outcomes.foldl (fun acc o => match o with | some items => acc ++ items | none => acc) []

/-- The categorySuccess flag after the loop: true iff some feed succeeded. -/
def categorySucceeded (outcomes : List FeedOutcome) : Bool :=
  outcomes.any (fun o => o.isSome)

/-- Net effect of one `fetchAllFeeds` cycle on one category
(source lines 255-308): on success combine existing and new articles,
dedup by url, sort by timestamp descending, keep the first 10, clear
`lastError`; on total failure set `lastError` and leave articles untouched.
`isLoading` ends false either way. -/
def processCategory (cs : CategoryState) (outcomes : List FeedOutcome) : CategoryState :=
  if categorySucceeded outcomes then
    { articles :=
        (List.insertionSort tsDesc
          (dedupByUrl (cs.articles ++ collectFetched outcomes))).take retainLimit,
      isLoading := false,
      lastError := none }
  else
    { articles := cs.articles,
      isLoading := false,
      lastError := some fetchFailureMessage }

/-- One whole `fetchAllFeeds` cycle (source lines 244-309): every category is
processed (each of the five categories has at least one configured feed in
`RSS_FEEDS`); `outcomes c` lists the per-feed results for category `c`. -/
def fetchAllFeeds (raw : Category → CategoryState)
    (outcomes : Category → List FeedOutcome) : Category → CategoryState :=
  fun c => processCategory (raw c) (outcomes c)

/-! ### Sentiment annotation (source lines 312-373) -/

/-- Fields read off the parsed LLM JSON (source lines 342-355); a field the
JSON object lacks reads as `undefined`, i.e. `none`. -/
structure ParsedAnalysis where
  summary : Option String
  sentiment : Option String
  bias : Option String
  mood : Option String
  sentiment_score : Option ℚ
  bias_level : Option ℚ
  manipulative_score : Option ℚ
deriving DecidableEq, Repr

/-- Outcome of the LLM request plus `JSON.parse` inside `analyzeSentiment`:
the request may throw, the content may fail to parse, it may parse to `null`
(property access then throws `TypeError`), or it may parse to any other value,
whose property reads yield the (possibly missing) fields. -/
inductive LlmOutcome
  | requestError (msg : String)
  | nonJson (msg : String)
  | jsonNull
  | jsonValue (fields : ParsedAnalysis)
deriving DecidableEq, Repr

/-- The annotated article shape built by `analyzeSentiment`
(source lines 344-356 and 359-371). LLM-derived fields are `Option`s because
the source copies parsed JSON properties through without validation. -/
structure AnalyzedArticle where
  title : String
  url : String
  source : String
  timestamp : Nat
  summary : Option String
  overall_sentiment : Option String
  sentiment_score : Option ℚ
  bias_level : Option ℚ
  manipulative_score : Option ℚ
  positive : Option String
  negative : Option String
deriving DecidableEq, Repr

/-- The catch-branch result of `analyzeSentiment` (source lines 359-371). -/
def fallbackAnalysis (article : Article) : AnalyzedArticle :=
  { title := article.title
    url := article.url
    source := article.source
    timestamp := article.timestamp
    summary := some "Analysis temporarily unavailable"
    overall_sentiment := some "neutral"
    sentiment_score := some 0
    bias_level := some 0
    manipulative_score := some 0
    positive := some "❓"
    negative := some "Analysis temporarily unavailable" }

/-- Model of analyzeSentiment (source lines 312-373): on a parsed non-null response
the fields are copied through unvalidated; every thrown failure (request
error, `JSON.parse` error, property access on `null`) is caught and mapped to
the fallback. The function is total: it never throws to its caller. -/
def analyzeSentiment (article : Article) (outcome : LlmOutcome) : AnalyzedArticle :=
  match outcome with
  | .jsonValue f =>
      { title := article.title
        url := article.url
        source := article.source
        timestamp := article.timestamp
        summary := f.summary
        overall_sentiment := f.sentiment
        sentiment_score := f.sentiment_score
        bias_level := f.bias_level
        manipulative_score := f.manipulative_score
        positive := f.mood
        negative := f.bias }
  | .requestError _ => fallbackAnalysis article
  | .nonJson _ => fallbackAnalysis article
  | .jsonNull => fallbackAnalysis article

/-- Classifies the outcomes on which the try block of `analyzeSentiment` throws
(and the `catch` produces the fallback). -/
def llmOutcomeThrows : LlmOutcome → Bool
  | .requestError _ => true
  | .nonJson _ => true
  | .jsonNull => true
  | .jsonValue _ => false

/-! ### Bucketing (source lines 376-431) -/

/-- The literal `0.3` threshold, as the rational 3/10 in constructor form so
that comparisons reduce in the kernel. -/
def posThreshold : ℚ := ⟨3, 10, by norm_num, by norm_num⟩

theorem posThreshold_eq : posThreshold = 3 / 10 := by
  rw [posThreshold, Rat.mk'_eq_divInt, Rat.divInt_eq_div]
  norm_num

/-- JS `x > c` where `x` may be `undefined`: `undefined` compares false. -/
def jsGt (x : Option ℚ) (c : ℚ) : Bool :=
  match x with
  | some q => c < q
  | none => false

/-- JS `x < c` where `x` may be `undefined`. -/
def jsLt (x : Option ℚ) (c : ℚ) : Bool :=
  match x with
  | some q => q < c
  | none => false

/-- JS `x >= c` where `x` may be `undefined`. -/
def jsGe (x : Option ℚ) (c : ℚ) : Bool :=
  match x with
  | some q => c ≤ q
  | none => false

/-- JS `x <= c` where `x` may be `undefined`. -/
def jsLe (x : Option ℚ) (c : ℚ) : Bool :=
  match x with
  | some q => q ≤ c
  | none => false

/-- Filter of the positive bucket: `a.sentiment_score > 0.3`
(source line 410). -/
def isPositive (a : AnalyzedArticle) : Bool :=
  jsGt a.sentiment_score posThreshold

/-- Filter of the negative bucket: `a.sentiment_score < -0.3`
(source line 415). -/
def isNegative (a : AnalyzedArticle) : Bool :=
  jsLt a.sentiment_score (-posThreshold)

/-- Filter of the neutral bucket:
`a.sentiment_score >= -0.3 && a.sentiment_score <= 0.3` (source line 420). -/
def isNeutral (a : AnalyzedArticle) : Bool :=
  jsGe a.sentiment_score (-posThreshold) && jsLe a.sentiment_score posThreshold

/-- Score as used by the sort comparators; the comparators are only ever
applied to articles that passed a score filter, hence have a present score. -/
def scoreVal (a : AnalyzedArticle) : ℚ :=
  a.sentiment_score.getD 0

/-- Sort order of `(a, b) => b.sentiment_score - a.sentiment_score`
(descending, source line 411). -/
def scoreDesc (a b : AnalyzedArticle) : Prop := scoreVal b ≤ scoreVal a

instance : DecidableRel scoreDesc :=
  fun a b => inferInstanceAs (Decidable (scoreVal b ≤ scoreVal a))

instance : IsTotal AnalyzedArticle scoreDesc :=
  ⟨fun a b => le_total (scoreVal b) (scoreVal a)⟩

instance : IsTrans AnalyzedArticle scoreDesc :=
  ⟨fun _ _ _ h1 h2 => le_trans h2 h1⟩

/-- Sort order of `(a, b) => a.sentiment_score - b.sentiment_score`
(ascending, source line 416). -/
def scoreAsc (a b : AnalyzedArticle) : Prop := scoreVal a ≤ scoreVal b

instance : DecidableRel scoreAsc :=
  fun a b => inferInstanceAs (Decidable (scoreVal a ≤ scoreVal b))

instance : IsTotal AnalyzedArticle scoreAsc :=
  ⟨fun a b => le_total (scoreVal a) (scoreVal b)⟩

instance : IsTrans AnalyzedArticle scoreAsc :=
  ⟨fun _ _ _ h1 h2 => le_trans h1 h2⟩

/-- Result shape of `analyzeArticles` (source lines 425-430). -/
structure AnalysisResult where
  positive : List AnalyzedArticle
  negative : List AnalyzedArticle
  neutral : List AnalyzedArticle
  suggestions : List String
deriving DecidableEq, Repr

/-- Bucketing step over the annotated articles (source lines 408-430):
filter, sort (positive descending, negative ascending), cap each bucket at 5.
The suggestion set stays empty because `analyzeSentiment` never returns a
`recommendations` property (source line 397 always reads `undefined`). -/
def partitionAnalyzed (analyzed : List AnalyzedArticle) : AnalysisResult :=
  { positive := (List.insertionSort scoreDesc (analyzed.filter isPositive)).take 5
    negative := (List.insertionSort scoreAsc (analyzed.filter isNegative)).take 5
    neutral := (analyzed.filter isNeutral).take 5
    suggestions := [] }

/-- Model of analyzeArticles (source lines 376-431) for a category whose retained
articles are `articles`; `llm` gives the annotation outcome of each article.
`analyzeSentiment` is total, so every article contributes one annotated
result (the per-article catch of source lines 400-403 never fires). -/
def analyzeArticles (articles : List Article) (llm : Article → LlmOutcome) : AnalysisResult :=
  if articles.isEmpty then
    { positive := []
      negative := []
      neutral := []
      suggestions := ["No articles available for analysis."] }
  else
    partitionAnalyzed (articles.map (fun a => analyzeSentiment a (llm a)))

/-! ### Analysis cache and the GET /api/articles/:category handler
(source lines 207-216, 434-565) -/

/-- The summary block of the cached data (source lines 528-534). -/
structure Summary where
  total_articles : Nat
  analyzed_articles : Nat
  positive_count : Nat
  negative_count : Nat
  neutral_count : Nat
deriving DecidableEq, Repr

/-- The articles block of the cached data (source lines 535-539). -/
structure Buckets where
  positive : List AnalyzedArticle
  negative : List AnalyzedArticle
  neutral : List AnalyzedArticle
deriving DecidableEq, Repr

/-- The per-category analysis payload cached and served
(source lines 526-541); `last_updated` is the epoch-ms time of the
analysis. -/
structure CacheData where
  category : Category
  summary : Summary
  articles : Buckets
  reader_suggestions : List String
  last_updated : Nat
deriving DecidableEq, Repr

/-- One entry of `analysisCache` (source lines 207-213 plus the
`analysisStartTime` field added at line 518). -/
structure AnalysisCacheEntry where
  timestamp : Nat
  data : Option CacheData
  isAnalyzing : Bool
  analysisStartTime : Option Nat
deriving DecidableEq, Repr

/-- Initial `analysisCache` (source lines 207-213). -/
def initialAnalysisCache : Category → AnalysisCacheEntry :=
  fun _ => { timestamp := 0, data := none, isAnalyzing := false, analysisStartTime := none }

/-- The constant CACHE_DURATION = 5 * 60 * 1000 (source line 215), in milliseconds. -/
def CACHE_DURATION : Nat := 5 * 60 * 1000

/-- The cache_status block attached to a 200 response
(source lines 496-500 and 550-553). -/
structure CacheStatus where
  from_cache : Bool
  age : Option Nat
  expires_in : Option Nat
  just_analyzed : Option Bool
deriving DecidableEq, Repr

/-- The possible responses of GET /api/articles/:category
(source lines 446-563), carrying the JSON fields the claims are about.
The no-articles 404 carries the lowercased parameter string, because it is
also reachable for the inherited object keys (see `isInheritedKey`), which
are not category values. -/
inductive Response
  | categoryNotFound (available : List Category)
  | loadingStatus (category : Category)
  | fetchError (message : String) (category : Category)
  | noArticles (category : String)
  | ok (data : CacheData) (cache_status : CacheStatus)
  | analyzingStatus (category : Category) (startedAt : Option Nat)
  | internalError (message : String) (category : Category)
deriving DecidableEq, Repr

/-- Model of String.prototype.toLowerCase() (source line 435), written
structurally so it reduces in the kernel. ASCII letters are lowercased by
Char.toLower; KELVIN SIGN (U+212A) is mapped to the letter k, being the only
code point whose JS (Unicode) lowercase mapping is an ASCII letter. Every
other code point is kept, which never changes whether the lowercased
parameter equals one of the ASCII-only known category names or inherited
object keys — the only comparisons made with it below. -/
def jsToLower (s : String) : String :=
  String.mk (s.data.map (fun c => if c = Char.ofNat 0x212A then 'k' else c.toLower))

/-- The own-keys part of the category-in-rawArticles membership lookup on the
lowercased path parameter (source line 446). -/
def parseCategory (s : String) : Option Category :=
  if s = "breaking" then some .breaking
  else if s = "technology" then some .technology
  else if s = "business" then some .business
  else if s = "science" then some .science
  else if s = "health" then some .health
  else none

/-- The name string of a category — the inverse of `parseCategory` on the
five known names, echoed in response bodies. -/
def categoryName : Category → String
  | .breaking => "breaking"
  | .technology => "technology"
  | .business => "business"
  | .science => "science"
  | .health => "health"

/-- The prototype-chain part of the in-operator check at source line 446:
`rawArticles` is a plain object literal, so `category in rawArticles` is also
true for every property inherited from Object.prototype. The lowercased
parameter can only equal the inherited names that are entirely lowercase,
namely constructor and the dunder proto accessor; the remaining inherited
names (hasOwnProperty, toString, valueOf, ...) contain uppercase letters and
never match. -/
def isInheritedKey (s : String) : Bool :=
  s = "constructor" || s = "__proto__"

/-- The data cached after a fresh analysis (source lines 524-545). -/
def buildCacheData (c : Category) (totalArticles : Nat)
    (analysis : AnalysisResult) (now : Nat) : CacheData :=
  { category := c
    summary :=
      { total_articles := totalArticles
        analyzed_articles :=
          analysis.positive.length + analysis.negative.length + analysis.neutral.length
        positive_count := analysis.positive.length
        negative_count := analysis.negative.length
        neutral_count := analysis.neutral.length }
    articles :=
      { positive := analysis.positive
        negative := analysis.negative
        neutral := analysis.neutral }
    reader_suggestions := analysis.suggestions
    last_updated := now }

/-- Source lines 504-564: the in-progress check, the fresh analysis run and
its two exits. `analysisOutcome` is the awaited `analyzeArticles(category)`
call: `.ok` its result, `.error` a thrown message (caught at line 555).
On success the entry is overwritten with the fresh data (lines 524-545); on a
throw the entry written at lines 515-519 keeps its old `timestamp`/`data` and
has `isAnalyzing`/`analysisStartTime` cleared (lines 557-558). -/
def runFreshAnalysis (raw : Category → CategoryState)
    (cache : Category → AnalysisCacheEntry) (c : Category) (now : Nat)
    (analysisOutcome : Except String AnalysisResult) :
    Response × (Category → AnalysisCacheEntry) :=
  if (cache c).isAnalyzing then
    (.analyzingStatus c (cache c).analysisStartTime, cache)
  else
    match analysisOutcome with
    | .ok analysis =>
        (.ok (buildCacheData c (raw c).articles.length analysis now)
           { from_cache := false, age := none, expires_in := none, just_analyzed := some true },
         fun c' => if c' = c then
             { timestamp := now,
               data := some (buildCacheData c (raw c).articles.length analysis now),
               isAnalyzing := false, analysisStartTime := none }
           else cache c')
    | .error msg =>
        (.internalError msg c,
         fun c' => if c' = c then
             { timestamp := (cache c).timestamp, data := (cache c).data,
               isAnalyzing := false, analysisStartTime := none }
           else cache c')

/-- GET /api/articles/:category (source lines 434-565). `now` models
`Date.now()`; the initial-load await of lines 441-444 only delays the same
logic and is omitted. Returns the response and the analysis cache after the
request. The in-operator check of line 446 passes for both the five own keys
(`parseCategory`) and the inherited object keys (`isInheritedKey`); for an
inherited key, `rawArticles[category]` is the inherited constructor or
prototype object, whose isLoading, lastError and articles properties all
read undefined, so the checks of lines 455-474 fall through to the
no-articles 404 of lines 476-481, echoing the lowercased parameter. -/
def getArticlesByCategory (raw : Category → CategoryState)
    (cache : Category → AnalysisCacheEntry) (categoryParam : String) (now : Nat)
    (analysisOutcome : Except String AnalysisResult) :
    Response × (Category → AnalysisCacheEntry) :=
  match parseCategory (jsToLower categoryParam) with
  | none =>
    if isInheritedKey (jsToLower categoryParam) then
      (.noArticles (jsToLower categoryParam), cache)
    else
      (.categoryNotFound allCategories, cache)
  | some c =>
    if (raw c).isLoading then
      (.loadingStatus c, cache)
    else
      match (raw c).lastError with
      | some msg => (.fetchError msg c, cache)
      | none =>
        if (raw c).articles.isEmpty then
          (.noArticles (categoryName c), cache)
        else
          match (cache c).data with
          | some d =>
            if now - (cache c).timestamp < CACHE_DURATION then
              (.ok d { from_cache := true, age := some ((now - (cache c).timestamp) / 1000),
                       expires_in := some ((CACHE_DURATION - (now - (cache c).timestamp)) / 1000),
                       just_analyzed := none }, cache)
            else
              runFreshAnalysis raw cache c now analysisOutcome
          | none =>
            runFreshAnalysis raw cache c now analysisOutcome

/-! ### Helper lemmas about the url deduplication -/

theorem mem_urlKeys {l : List Article} {u : String} :
    u ∈ urlKeys l ↔ ∃ a ∈ l, a.url = u := by
  induction l with
  | nil => simp [urlKeys]
  | cons a rest ih =>
    simp only [urlKeys, List.mem_cons, List.mem_filter, decide_eq_true_eq]
    constructor
    · rintro (rfl | ⟨h1, _⟩)
      · exact ⟨a, Or.inl rfl, rfl⟩
      · obtain ⟨b, hb, rfl⟩ := ih.mp h1
        exact ⟨b, Or.inr hb, rfl⟩
    · rintro ⟨b, rfl | hb', rfl⟩
      · exact Or.inl rfl
      · by_cases h : b.url = a.url
        · exact Or.inl h
        · exact Or.inr ⟨ih.mpr ⟨b, hb', rfl⟩, h⟩

theorem nodup_urlKeys (l : List Article) : (urlKeys l).Nodup := by
  induction l with
  | nil => simp [urlKeys]
  | cons a rest ih =>
    refine List.Nodup.cons ?_ (ih.filter _)
    intro hmem
    have h2 := (List.mem_filter.mp hmem).2
    simp at h2

theorem lastWithUrl_url {l : List Article} {u : String} {a : Article}
    (h : lastWithUrl l u = some a) : a.url = u := by
  have hmem := List.mem_of_getLast?_eq_some h
  simpa using (List.mem_filter.mp hmem).2

theorem lastWithUrl_mem {l : List Article} {u : String} {a : Article}
    (h : lastWithUrl l u = some a) : a ∈ l := by
  have hmem := List.mem_of_getLast?_eq_some h
  exact (List.mem_filter.mp hmem).1

theorem mem_dedupByUrl_lastWithUrl {l : List Article} {a : Article}
    (h : a ∈ dedupByUrl l) : lastWithUrl l a.url = some a := by
  obtain ⟨u, _, hu⟩ := List.mem_filterMap.mp h
  have := lastWithUrl_url hu
  subst this
  exact hu

theorem nodup_map_of_filterMap {α β : Type} {keys : List α} {f : α → Option β}
    {g : β → α} (hkeys : keys.Nodup) (hfg : ∀ u a, f u = some a → g a = u) :
    ((keys.filterMap f).map g).Nodup := by
  induction keys with
  | nil => simp
  | cons u ks ih =>
    have hks := List.Nodup.of_cons hkeys
    have hu : u ∉ ks := (List.nodup_cons.mp hkeys).1
    cases hf : f u with
    | none => simpa [List.filterMap_cons, hf] using ih hks
    | some b =>
      simp only [List.filterMap_cons, hf, List.map_cons]
      refine List.Nodup.cons ?_ (ih hks)
      intro hmem
      obtain ⟨b', hb', hgb⟩ := List.mem_map.mp hmem
      obtain ⟨v, hv, hfv⟩ := List.mem_filterMap.mp hb'
      rw [hfg u b hf] at hgb
      rw [hfg v b' hfv] at hgb
      exact hu (hgb ▸ hv)

theorem nodup_urls_dedupByUrl (l : List Article) :
    ((dedupByUrl l).map (fun a => a.url)).Nodup :=
  nodup_map_of_filterMap (nodup_urlKeys l) (fun _ _ h => lastWithUrl_url h)

/-! ### C2: dedup behaviour of a fetch cycle -/

/-- The retained list after a successful cycle, as used below. -/
theorem processCategory_articles_of_success {cs : CategoryState}
    {outs : List FeedOutcome} (h : categorySucceeded outs = true) :
    (processCategory cs outs).articles =
      (List.insertionSort tsDesc
        (dedupByUrl (cs.articles ++ collectFetched outs))).take retainLimit := by
  simp [processCategory, h]

/-- C2 (amended): after a fetch cycle in which at least one source of the
category succeeded, the retained set contains each url at most once, and the
entry retained for a url is the most recently seen one — the last occurrence
of that url in the concatenation existing-then-newly-fetched — regardless of
which duplicate carries the newest timestamp. -/
theorem processCategory_dedup_lastSeen (cs : CategoryState) (outs : List FeedOutcome)
    (h : categorySucceeded outs = true) :
    ((processCategory cs outs).articles.map (fun a => a.url)).Nodup ∧
    ∀ a ∈ (processCategory cs outs).articles,
      lastWithUrl (cs.articles ++ collectFetched outs) a.url = some a := by
  rw [processCategory_articles_of_success h]
  constructor
  · have hperm : List.Perm
        (List.insertionSort tsDesc (dedupByUrl (cs.articles ++ collectFetched outs)))
        (dedupByUrl (cs.articles ++ collectFetched outs)) :=
      List.perm_insertionSort _ _
    have hnodup := ((hperm.map (fun a => a.url)).nodup_iff).mpr
      (nodup_urls_dedupByUrl (cs.articles ++ collectFetched outs))
    exact hnodup.sublist ((List.take_sublist _ _).map _)
  · intro a ha
    have h1 := List.mem_of_mem_take ha
    have h2 := (List.perm_insertionSort tsDesc _).mem_iff.mp h1
    exact mem_dedupByUrl_lastWithUrl h2

/-- An article already retained for the technology category. -/
def oldArticle : Article :=
  { category := .technology, title := "old title", content := "old content",
    url := "https://example.com/story", source := "feed", timestamp := 100 }

/-- The same story served again by the feed, with an older timestamp and
different content. -/
def refetched : Article :=
  { category := .technology, title := "new title", content := "new content",
    url := "https://example.com/story", source := "feed", timestamp := 50 }

/-- A category state that already retains `oldArticle`. -/
def overlapState : CategoryState :=
  { articles := [oldArticle], isLoading := false, lastError := none }

/-- C2 counterexample: a fetch cycle whose new batch repeats a retained url
with an OLDER timestamp keeps the refetched entry, not the one with the
newest timestamp — refuting "the entry kept for a duplicated url is the one
with the newest timestamp". -/
theorem processCategory_keeps_refetched_older_cex :
    (processCategory overlapState [some [refetched]]).articles = [refetched] ∧
    refetched.timestamp < oldArticle.timestamp ∧
    oldArticle ∉ (processCategory overlapState [some [refetched]]).articles := by
  decide

/-- C2 witness: on a concrete overlapping cycle, the retained urls are
duplicate-free and the entry kept for the duplicated url is the last-seen
(refetched) one. -/
theorem processCategory_dedup_lastSeen_witness :
    ((processCategory overlapState [some [refetched]]).articles.map
      (fun a => a.url)).Nodup ∧
    lastWithUrl (overlapState.articles ++ collectFetched [some [refetched]]) refetched.url
      = some refetched := by
  have h := processCategory_dedup_lastSeen overlapState [some [refetched]] (by decide)
  exact ⟨h.1, h.2 refetched (by decide)⟩

/-! ### C7: retention cap and ordering invariant -/

/-- The retention invariant of a category: at most 10 articles, in
descending timestamp order. -/
def retainedInv (cs : CategoryState) : Prop :=
  cs.articles.length ≤ retainLimit ∧ cs.articles.Sorted tsDesc

theorem processCategory_retainedInv {cs : CategoryState} (outs : List FeedOutcome)
    (h : retainedInv cs) : retainedInv (processCategory cs outs) := by
  by_cases hs : categorySucceeded outs = true
  · constructor
    · rw [processCategory_articles_of_success hs]
      exact List.length_take_le _ _
    · rw [processCategory_articles_of_success hs]
      exact List.Pairwise.sublist (List.take_sublist _ _)
        (List.sorted_insertionSort tsDesc _)
  · have hs' : categorySucceeded outs = false := by simpa using hs
    simpa [retainedInv, processCategory, hs'] using h

theorem initial_retainedInv (c : Category) : retainedInv (initialRawArticles c) := by
  refine ⟨?_, ?_⟩ <;> simp [initialRawArticles, retainedInv]

theorem foldl_fetch_retainedInv (cycles : List (Category → List FeedOutcome)) :
    ∀ st : Category → CategoryState, (∀ c, retainedInv (st c)) →
      ∀ c, retainedInv ((cycles.foldl fetchAllFeeds st) c) := by
  induction cycles with
  | nil => exact fun st h c => h c
  | cons cyc rest ih =>
    intro st h c
    exact ih _ (fun c' => processCategory_retainedInv _ (h c')) c

/-- C7: starting from the initial empty store, after any number of fetch
cycles every category retains at most 10 articles in descending timestamp
order; and one execution of fetchAllFeeds preserves the invariant from any
state satisfying it. -/
theorem retention_invariant :
    (∀ (cycles : List (Category → List FeedOutcome)) (c : Category),
      retainedInv ((cycles.foldl fetchAllFeeds initialRawArticles) c)) ∧
    (∀ (raw : Category → CategoryState) (outs : Category → List FeedOutcome)
      (c : Category), (∀ c', retainedInv (raw c')) →
        retainedInv (fetchAllFeeds raw outs c)) := by
  constructor
  · intro cycles c
    exact foldl_fetch_retainedInv cycles initialRawArticles initial_retainedInv c
  · intro raw outs c h
    exact processCategory_retainedInv _ (h c)

/-- C7 witness: the preservation half applied to a concrete one-cycle run
over the initial store. -/
theorem retention_invariant_witness :
    retainedInv (fetchAllFeeds initialRawArticles
      (fun _ => [some [refetched, oldArticle]]) .technology) :=
  retention_invariant.2 initialRawArticles (fun _ => [some [refetched, oldArticle]])
    .technology initial_retainedInv

/-! ### C8: per-category success/failure frame -/

/-- C8: in a fetch cycle, if at least one source of the category succeeds the
stored `lastError` ends up null (whatever the other sources did); if every
source fails, `lastError` is set to the failure message and the retained
articles are left exactly as they were. -/
theorem category_lastError_frame (cs : CategoryState) (outs : List FeedOutcome) :
    (categorySucceeded outs = true → (processCategory cs outs).lastError = none) ∧
    (categorySucceeded outs = false →
      (processCategory cs outs).lastError = some fetchFailureMessage ∧
      (processCategory cs outs).articles = cs.articles) := by
  constructor
  · intro h
    simp [processCategory, h]
  · intro h
    simp [processCategory, h]

/-- C8 witness: one succeeding source next to one exhausted source leaves no
error; a cycle where the only source fails records the message and keeps the
previously retained article untouched. -/
theorem category_lastError_frame_witness :
    (processCategory overlapState [some [refetched], none]).lastError = none ∧
    ((processCategory overlapState [none]).lastError = some fetchFailureMessage ∧
      (processCategory overlapState [none]).articles = overlapState.articles) :=
  ⟨(category_lastError_frame overlapState [some [refetched], none]).1 (by decide),
   (category_lastError_frame overlapState [none]).2 (by decide)⟩

/-! ### C3: annotate-or-degrade behaviour of analyzeSentiment -/

/-- C3 (amended): on every failure that makes the `try` block throw — a
request/network error, a non-JSON response, or a response parsing to `null` —
`analyzeSentiment` returns the fallback annotation: neutral sentiment, zero
scores and the placeholder texts; and on EVERY outcome, throwing or not, it
preserves the title, url, source and timestamp of the article and returns without
throwing. A parseable non-null response that violates the schema is copied
through field by field instead (see the counterexample). -/
theorem analyzeSentiment_degrade_on_throw (article : Article) (outcome : LlmOutcome) :
    (llmOutcomeThrows outcome = true →
      analyzeSentiment article outcome = fallbackAnalysis article ∧
      (analyzeSentiment article outcome).overall_sentiment = some "neutral" ∧
      (analyzeSentiment article outcome).sentiment_score = some 0 ∧
      (analyzeSentiment article outcome).bias_level = some 0 ∧
      (analyzeSentiment article outcome).manipulative_score = some 0 ∧
      (analyzeSentiment article outcome).summary = some "Analysis temporarily unavailable") ∧
    ((analyzeSentiment article outcome).title = article.title ∧
     (analyzeSentiment article outcome).url = article.url ∧
     (analyzeSentiment article outcome).source = article.source ∧
     (analyzeSentiment article outcome).timestamp = article.timestamp) := by
  cases outcome <;>
    simp [analyzeSentiment, fallbackAnalysis, llmOutcomeThrows]

/-- C3 witness: the fallback on a concrete article whose annotation request
threw, and the field preservation on that outcome. -/
theorem analyzeSentiment_degrade_on_throw_witness :
    (analyzeSentiment oldArticle (.requestError "ECONNRESET")
      = fallbackAnalysis oldArticle ∧
     (analyzeSentiment oldArticle (.requestError "ECONNRESET")).overall_sentiment
      = some "neutral" ∧
     (analyzeSentiment oldArticle (.requestError "ECONNRESET")).sentiment_score
      = some 0 ∧
     (analyzeSentiment oldArticle (.requestError "ECONNRESET")).bias_level = some 0 ∧
     (analyzeSentiment oldArticle (.requestError "ECONNRESET")).manipulative_score
      = some 0 ∧
     (analyzeSentiment oldArticle (.requestError "ECONNRESET")).summary
      = some "Analysis temporarily unavailable") ∧
    ((analyzeSentiment oldArticle (.requestError "ECONNRESET")).title
      = oldArticle.title ∧
     (analyzeSentiment oldArticle (.requestError "ECONNRESET")).url = oldArticle.url ∧
     (analyzeSentiment oldArticle (.requestError "ECONNRESET")).source
      = oldArticle.source ∧
     (analyzeSentiment oldArticle (.requestError "ECONNRESET")).timestamp
      = oldArticle.timestamp) :=
  ⟨(analyzeSentiment_degrade_on_throw oldArticle (.requestError "ECONNRESET")).1 (by decide),
   (analyzeSentiment_degrade_on_throw oldArticle (.requestError "ECONNRESET")).2⟩

/-- A schema-violating but parseable LLM response: valid JSON (for instance
`{}`) in which every expected field is missing. -/
def emptyParsed : ParsedAnalysis :=
  { summary := none, sentiment := none, bias := none, mood := none,
    sentiment_score := none, bias_level := none, manipulative_score := none }

/-- C3 counterexample: a schema violation that still parses as non-null JSON
is NOT mapped to the fallback — the missing fields are copied through as
`undefined`, so the result has neither `overall_sentiment = "neutral"` nor
`sentiment_score = 0`, refuting the claim for the schema-violation failure
class. -/
theorem analyzeSentiment_schema_violation_cex :
    (analyzeSentiment oldArticle (.jsonValue emptyParsed)).sentiment_score = none ∧
    (analyzeSentiment oldArticle (.jsonValue emptyParsed)).overall_sentiment = none ∧
    (analyzeSentiment oldArticle (.jsonValue emptyParsed)).sentiment_score ≠ some 0 ∧
    (analyzeSentiment oldArticle (.jsonValue emptyParsed)).overall_sentiment
      ≠ some "neutral" ∧
    analyzeSentiment oldArticle (.jsonValue emptyParsed)
      ≠ fallbackAnalysis oldArticle := by
  decide

/-! ### C4: the three sentiment buckets -/

theorem mem_take_insertionSort_filter {α : Type} {r : α → α → Prop} [DecidableRel r]
    {p : α → Bool} {l : List α} {k : Nat} {a : α}
    (h : a ∈ (List.insertionSort r (l.filter p)).take k) : a ∈ l ∧ p a = true := by
  have h1 := List.mem_of_mem_take h
  have h2 := (List.perm_insertionSort r _).mem_iff.mp h1
  exact List.mem_filter.mp h2

theorem perm_take_insertionSort_filter {α : Type} {r : α → α → Prop} [DecidableRel r]
    {p : α → Bool} {l : List α} {k : Nat}
    (h : (l.filter p).length ≤ k) :
    ((List.insertionSort r (l.filter p)).take k).Perm (l.filter p) := by
  have hlen : (List.insertionSort r (l.filter p)).length ≤ k := by
    rw [(List.perm_insertionSort r _).length_eq]
    exact h
  rw [List.take_of_length_le hlen]
  exact List.perm_insertionSort r _

/-- C4: for every list of annotated articles (each carrying a numeric
sentiment score, as the data model prescribes), the bucketing of
`analyzeArticles` yields: a positive bucket of members of the input scoring
above 0.3, sorted descending, capped at 5 and exhaustive when at most 5
qualify; a negative bucket of members scoring below -0.3, sorted ascending,
capped at 5 and exhaustive when at most 5 qualify; a neutral bucket equal to
the first 5 articles of the remainder, where the remainder filter accepts
exactly the scored articles that are neither positive nor negative; and for a
non-empty article list `analyzeArticles` is exactly this bucketing of its
annotations. -/
theorem partitionAnalyzed_buckets (analyzed : List AnalyzedArticle)
    (hs : ∀ a ∈ analyzed, a.sentiment_score.isSome) :
    (∀ a ∈ (partitionAnalyzed analyzed).positive, a ∈ analyzed ∧ isPositive a = true) ∧
    (partitionAnalyzed analyzed).positive.Sorted scoreDesc ∧
    (partitionAnalyzed analyzed).positive.length ≤ 5 ∧
    ((analyzed.filter isPositive).length ≤ 5 →
      (partitionAnalyzed analyzed).positive.Perm (analyzed.filter isPositive)) ∧
    (∀ a ∈ (partitionAnalyzed analyzed).negative, a ∈ analyzed ∧ isNegative a = true) ∧
    (partitionAnalyzed analyzed).negative.Sorted scoreAsc ∧
    (partitionAnalyzed analyzed).negative.length ≤ 5 ∧
    ((analyzed.filter isNegative).length ≤ 5 →
      (partitionAnalyzed analyzed).negative.Perm (analyzed.filter isNegative)) ∧
    (partitionAnalyzed analyzed).neutral = (analyzed.filter isNeutral).take 5 ∧
    (partitionAnalyzed analyzed).neutral.length ≤ 5 ∧
    (∀ a ∈ analyzed, (isNeutral a = true ↔ (isPositive a = false ∧ isNegative a = false))) ∧
    (∀ (articles : List Article) (llm : Article → LlmOutcome), articles ≠ [] →
      analyzeArticles articles llm =
        partitionAnalyzed (articles.map (fun a => analyzeSentiment a (llm a)))) := by
  refine ⟨?_, ?_, ?_, ?_, ?_, ?_, ?_, ?_, ?_, ?_, ?_, ?_⟩
  · intro a ha
    exact mem_take_insertionSort_filter ha
  · exact List.Pairwise.sublist (List.take_sublist _ _)
      (List.sorted_insertionSort scoreDesc _)
  · exact List.length_take_le _ _
  · intro h
    exact perm_take_insertionSort_filter h
  · intro a ha
    exact mem_take_insertionSort_filter ha
  · exact List.Pairwise.sublist (List.take_sublist _ _)
      (List.sorted_insertionSort scoreAsc _)
  · exact List.length_take_le _ _
  · intro h
    exact perm_take_insertionSort_filter h
  · rfl
  · exact List.length_take_le _ _
  · intro a ha
    obtain ⟨q, hq⟩ := Option.isSome_iff_exists.mp (hs a ha)
    simp only [isNeutral, isPositive, isNegative, jsGe, jsLe, jsGt, jsLt, hq,
      Bool.and_eq_true, decide_eq_true_eq, decide_eq_false_iff_not, not_lt]
    exact ⟨fun ⟨h1, h2⟩ => ⟨h2, h1⟩, fun ⟨h1, h2⟩ => ⟨h2, h1⟩⟩
  · intro articles llm h
    have hne : articles.isEmpty = false := by
      simpa [List.isEmpty_iff] using h
    simp [analyzeArticles, hne]

/-- Rational 1/2 in constructor form, used as a concrete positive score. -/
def halfQ : ℚ := ⟨1, 2, by norm_num, by norm_num⟩

/-- Rational -1/2 in constructor form, used as a concrete negative score. -/
def negHalfQ : ℚ := ⟨-1, 2, by norm_num, by norm_num⟩

/-- A concrete annotated article with the given url key and score. -/
def scoredArticle (u : String) (t : Nat) (q : ℚ) : AnalyzedArticle :=
  { title := "title " ++ u, url := u, source := "feed", timestamp := t,
    summary := some "summary", overall_sentiment := some "mixed",
    sentiment_score := some q, bias_level := some 0, manipulative_score := some 0,
    positive := some "mood", negative := some "bias" }

/-- C4 witness: the bucket properties evaluated on a concrete annotated
triple with one positive, one negative and one neutral score. -/
theorem partitionAnalyzed_buckets_witness :
    (scoredArticle "p" 1 halfQ ∈
        [scoredArticle "p" 1 halfQ, scoredArticle "n" 2 negHalfQ, scoredArticle "z" 3 0] ∧
      isPositive (scoredArticle "p" 1 halfQ) = true) ∧
    (partitionAnalyzed [scoredArticle "p" 1 halfQ, scoredArticle "n" 2 negHalfQ,
        scoredArticle "z" 3 0]).positive.Sorted scoreDesc ∧
    (partitionAnalyzed [scoredArticle "p" 1 halfQ, scoredArticle "n" 2 negHalfQ,
        scoredArticle "z" 3 0]).positive.Perm
      ([scoredArticle "p" 1 halfQ, scoredArticle "n" 2 negHalfQ,
        scoredArticle "z" 3 0].filter isPositive) ∧
    (partitionAnalyzed [scoredArticle "p" 1 halfQ, scoredArticle "n" 2 negHalfQ,
        scoredArticle "z" 3 0]).neutral =
      ([scoredArticle "p" 1 halfQ, scoredArticle "n" 2 negHalfQ,
        scoredArticle "z" 3 0].filter isNeutral).take 5 ∧
    (isNeutral (scoredArticle "z" 3 0) = true ↔
      (isPositive (scoredArticle "z" 3 0) = false ∧
        isNegative (scoredArticle "z" 3 0) = false)) := by
  have h := partitionAnalyzed_buckets
    [scoredArticle "p" 1 halfQ, scoredArticle "n" 2 negHalfQ, scoredArticle "z" 3 0]
    (by decide)
  refine ⟨h.1 (scoredArticle "p" 1 halfQ) (by decide), h.2.1, ?_, h.2.2.2.2.2.2.2.2.1, ?_⟩
  · exact h.2.2.2.1 (by decide)
  · exact h.2.2.2.2.2.2.2.2.2.2.1 (scoredArticle "z" 3 0) (by decide)

/-! ### Helper: the fresh-analysis path only produces three response shapes -/

theorem runFreshAnalysis_shape (raw : Category → CategoryState)
    (cache : Category → AnalysisCacheEntry) (c : Category) (now : Nat)
    (o : Except String AnalysisResult) :
    ((runFreshAnalysis raw cache c now o).1
        = .analyzingStatus c (cache c).analysisStartTime) ∨
    (∃ d st, (runFreshAnalysis raw cache c now o).1 = .ok d st) ∨
    (∃ msg, (runFreshAnalysis raw cache c now o).1 = .internalError msg c) := by
  unfold runFreshAnalysis
  by_cases h : (cache c).isAnalyzing
  · left
    simp [h]
  · cases o with
    | ok a =>
      right; left
      refine ⟨buildCacheData c (raw c).articles.length a now,
        { from_cache := false, age := none, expires_in := none,
          just_analyzed := some true }, ?_⟩
      simp [h]
    | error m =>
      right; right
      exact ⟨m, by simp [h]⟩

/-! ### C1: when the stored lastError drives a 500 -/

/-- C1 (amended): for a known category that is not loading, a stored
`lastError` always produces the 500 response carrying the stored message,
regardless of whether usable retained articles exist; and conversely the
500-with-stored-message response only arises from a known, non-loading
category whose `lastError` is set. -/
theorem handler_fetchError_iff_lastError (raw : Category → CategoryState)
    (cache : Category → AnalysisCacheEntry) (s : String) (now : Nat)
    (o : Except String AnalysisResult) :
    (∀ c m, parseCategory (jsToLower s) = some c → (raw c).isLoading = false →
      (raw c).lastError = some m →
      getArticlesByCategory raw cache s now o = (.fetchError m c, cache)) ∧
    (∀ m c, (getArticlesByCategory raw cache s now o).1 = .fetchError m c →
      parseCategory (jsToLower s) = some c ∧ (raw c).isLoading = false ∧
      (raw c).lastError = some m) := by
  constructor
  · intro c m hc hl he
    simp [getArticlesByCategory, hc, hl, he]
  · intro m c h
    unfold getArticlesByCategory at h
    split at h
    · split at h <;> simp at h
    · next c' hp =>
      split at h
      · simp at h
      · next hl =>
        split at h
        · next msg he =>
          simp only [Prod.fst] at h
          cases h
          exact ⟨hp, by simpa using hl, he⟩
        · next he =>
          split at h
          · simp at h
          · split at h
            · next d hd =>
              split at h
              · simp at h
              · rcases runFreshAnalysis_shape raw cache c' now o with
                  hs | ⟨d', st, hs⟩ | ⟨msg, hs⟩ <;> rw [hs] at h <;> simp at h
            · next hd =>
              rcases runFreshAnalysis_shape raw cache c' now o with
                hs | ⟨d', st, hs⟩ | ⟨msg, hs⟩ <;> rw [hs] at h <;> simp at h

/-- The technology category after two modelled fetch cycles: the first cycle
succeeds and retains `oldArticle`, the second cycle fails on every source,
setting the stored error while leaving the retained article in place. -/
def techErrorState : CategoryState :=
  processCategory (processCategory (initialRawArticles .technology) [some [oldArticle]]) [none]

/-- A raw-articles store in which only the technology category carries the
reachable error-with-retained-articles state. -/
def rawWithTechError : Category → CategoryState :=
  fun c => if c = .technology then techErrorState else initialRawArticles c

/-- C1 counterexample: in a state reached by two fetch cycles, the technology
category has a usable retained article AND a stored raw-fetch error, and the
handler still answers with the 500 error carrying the stored message —
refuting "if retained articles exist, the stored error alone does not cause
an error response". -/
theorem handler_500_despite_retained_cex :
    techErrorState.articles = [oldArticle] ∧
    techErrorState.lastError = some fetchFailureMessage ∧
    (getArticlesByCategory rawWithTechError initialAnalysisCache "technology" 1000
        (.ok (partitionAnalyzed []))).1
      = .fetchError fetchFailureMessage .technology := by
  decide

/-- C1 witness: the amended rule evaluated on the concrete error state, with
a mixed-case path parameter. -/
theorem handler_fetchError_iff_lastError_witness :
    getArticlesByCategory rawWithTechError initialAnalysisCache "Technology" 1000
        (.error "boom")
      = (.fetchError fetchFailureMessage .technology, initialAnalysisCache) :=
  (handler_fetchError_iff_lastError rawWithTechError initialAnalysisCache "Technology"
      1000 (.error "boom")).1
    .technology fetchFailureMessage (by decide) (by decide) (by decide)

/-! ### C5: cache freshness -/

/-- C5: for a known, loaded, error-free category with retained articles:
a request while the cached analysis is younger than the TTL returns exactly
the cached data marked `from_cache = true` with age and expiry metadata,
leaving the cache unchanged; a request with no cached data or with the cache
at or past the TTL, while no analysis is in progress and the analysis step
returns a result, computes a fresh analysis, returns it marked
`from_cache = false`, and stores it under a new timestamp. -/
theorem handler_cache_freshness (raw : Category → CategoryState)
    (cache : Category → AnalysisCacheEntry) (s : String) (now : Nat)
    (o : Except String AnalysisResult) (c : Category)
    (hc : parseCategory (jsToLower s) = some c)
    (hl : (raw c).isLoading = false)
    (he : (raw c).lastError = none)
    (hne : (raw c).articles.isEmpty = false) :
    (∀ d, (cache c).data = some d → now - (cache c).timestamp < CACHE_DURATION →
      getArticlesByCategory raw cache s now o =
        (.ok d { from_cache := true, age := some ((now - (cache c).timestamp) / 1000),
                 expires_in := some ((CACHE_DURATION - (now - (cache c).timestamp)) / 1000),
                 just_analyzed := none }, cache)) ∧
    (((cache c).data = none ∨ CACHE_DURATION ≤ now - (cache c).timestamp) →
      (cache c).isAnalyzing = false →
      ∀ analysis, o = .ok analysis →
        getArticlesByCategory raw cache s now o =
          (.ok (buildCacheData c (raw c).articles.length analysis now)
             { from_cache := false, age := none, expires_in := none,
               just_analyzed := some true },
           fun c' => if c' = c then
               { timestamp := now,
                 data := some (buildCacheData c (raw c).articles.length analysis now),
                 isAnalyzing := false, analysisStartTime := none }
             else cache c')) := by
  constructor
  · intro d hd hfresh
    simp [getArticlesByCategory, hc, hl, he, hne, hd, hfresh]
  · intro hstale hia analysis ho
    subst ho
    rcases hstale with hnone | hs
    · simp [getArticlesByCategory, hc, hl, he, hne, hnone, runFreshAnalysis, hia]
    · have hnotlt : ¬ (now - (cache c).timestamp < CACHE_DURATION) := not_lt.mpr hs
      cases hd : (cache c).data with
      | none =>
        simp [getArticlesByCategory, hc, hl, he, hne, hd, runFreshAnalysis, hia]
      | some d =>
        simp [getArticlesByCategory, hc, hl, he, hne, hd, hnotlt, runFreshAnalysis, hia]

/-- A fixed successful annotation outcome used by the concrete scenarios. -/
def goodParsed : ParsedAnalysis :=
  { summary := some "fine", sentiment := some "neutral", bias := some "none",
    mood := some "calm", sentiment_score := some 0, bias_level := some 1,
    manipulative_score := some 2 }

/-- The analysis of the single retained technology article under the good
annotation outcome. -/
def techAnalysis : AnalysisResult :=
  analyzeArticles [oldArticle] (fun _ => .jsonValue goodParsed)

/-- The analysis data cached for technology at time 1000. -/
def techData : CacheData := buildCacheData .technology 1 techAnalysis 1000

/-- A raw store whose technology category is loaded and error-free with one
retained article. -/
def rawTechLoaded : Category → CategoryState :=
  fun c => if c = .technology then
      { articles := [oldArticle], isLoading := false, lastError := none }
    else initialRawArticles c

/-- An analysis cache holding `techData` for technology since time 1000. -/
def cacheWithTech : Category → AnalysisCacheEntry :=
  fun c => if c = .technology then
      { timestamp := 1000, data := some techData, isAnalyzing := false,
        analysisStartTime := none }
    else initialAnalysisCache c

/-- C5 witness: at time 2000 the 1-second-old cache is served with
`from_cache = true`, age 1s and 299s to expiry; from an empty cache the same
request computes, returns and stores a fresh analysis timestamped 2000 with
`from_cache = false`. -/
theorem handler_cache_freshness_witness :
    getArticlesByCategory rawTechLoaded cacheWithTech "technology" 2000 (.ok techAnalysis)
      = (.ok techData { from_cache := true, age := some 1, expires_in := some 299,
                        just_analyzed := none }, cacheWithTech) ∧
    getArticlesByCategory rawTechLoaded initialAnalysisCache "technology" 2000
        (.ok techAnalysis)
      = (.ok (buildCacheData .technology 1 techAnalysis 2000)
           { from_cache := false, age := none, expires_in := none,
             just_analyzed := some true },
         fun c' => if c' = .technology then
             { timestamp := 2000, data := some (buildCacheData .technology 1 techAnalysis 2000),
               isAnalyzing := false, analysisStartTime := none }
           else initialAnalysisCache c') :=
  ⟨(handler_cache_freshness rawTechLoaded cacheWithTech "technology" 2000
      (.ok techAnalysis) .technology (by decide) (by decide) (by decide) (by decide)).1
      techData (by decide) (by decide),
   (handler_cache_freshness rawTechLoaded initialAnalysisCache "technology" 2000
      (.ok techAnalysis) .technology (by decide) (by decide) (by decide) (by decide)).2
      (Or.inl (by decide)) (by decide) techAnalysis rfl⟩

/-! ### C6: the in-progress flag is cleared on a failed analysis -/

/-- C6: when a request reaches the fresh-analysis path (known, loaded,
error-free category with articles, no fresh cache, no analysis in progress)
and the analysis step throws, the handler responds with the 500 internal
error and the cache entry of the category ends with `isAnalyzing = false` and
`analysisStartTime` cleared — the category is not left stuck analyzing. -/
theorem handler_clears_isAnalyzing_on_throw (raw : Category → CategoryState)
    (cache : Category → AnalysisCacheEntry) (s : String) (now : Nat)
    (o : Except String AnalysisResult) (c : Category) (msg : String)
    (hc : parseCategory (jsToLower s) = some c)
    (hl : (raw c).isLoading = false)
    (he : (raw c).lastError = none)
    (hne : (raw c).articles.isEmpty = false)
    (hstale : (cache c).data = none ∨ CACHE_DURATION ≤ now - (cache c).timestamp)
    (hia : (cache c).isAnalyzing = false)
    (ho : o = .error msg) :
    (getArticlesByCategory raw cache s now o).1 = .internalError msg c ∧
    ((getArticlesByCategory raw cache s now o).2 c).isAnalyzing = false ∧
    ((getArticlesByCategory raw cache s now o).2 c).analysisStartTime = none := by
  subst ho
  rcases hstale with hnone | hs
  · simp [getArticlesByCategory, hc, hl, he, hne, hnone, runFreshAnalysis, hia]
  · have hnotlt : ¬ (now - (cache c).timestamp < CACHE_DURATION) := not_lt.mpr hs
    cases hd : (cache c).data with
    | none =>
      simp [getArticlesByCategory, hc, hl, he, hne, hd, runFreshAnalysis, hia]
    | some d =>
      simp [getArticlesByCategory, hc, hl, he, hne, hd, hnotlt, runFreshAnalysis, hia]

/-- C6 witness: a concrete failed analysis run answers 500 and leaves the
technology cache entry not analyzing, with no start time. -/
theorem handler_clears_isAnalyzing_on_throw_witness :
    (getArticlesByCategory rawTechLoaded initialAnalysisCache "technology" 2000
        (.error "groq exploded")).1 = .internalError "groq exploded" .technology ∧
    ((getArticlesByCategory rawTechLoaded initialAnalysisCache "technology" 2000
        (.error "groq exploded")).2 .technology).isAnalyzing = false ∧
    ((getArticlesByCategory rawTechLoaded initialAnalysisCache "technology" 2000
        (.error "groq exploded")).2 .technology).analysisStartTime = none :=
  handler_clears_isAnalyzing_on_throw rawTechLoaded initialAnalysisCache "technology"
    2000 (.error "groq exploded") .technology "groq exploded"
    (by decide) (by decide) (by decide) (by decide) (Or.inl (by decide)) (by decide) rfl

/-! ### C9: consistency of the summary counts -/

/-- The summary counts of a cached payload agree with its bucket lengths,
and `analyzed_articles` is their sum. -/
def summaryConsistent (d : CacheData) : Prop :=
  d.summary.positive_count = d.articles.positive.length ∧
  d.summary.negative_count = d.articles.negative.length ∧
  d.summary.neutral_count = d.articles.neutral.length ∧
  d.summary.analyzed_articles =
    d.articles.positive.length + d.articles.negative.length + d.articles.neutral.length

/-- Every payload stored in the analysis cache is summary-consistent. -/
def cacheConsistent (cache : Category → AnalysisCacheEntry) : Prop :=
  ∀ c d, (cache c).data = some d → summaryConsistent d

theorem buildCacheData_consistent (c : Category) (tot : Nat)
    (analysis : AnalysisResult) (now : Nat) :
    summaryConsistent (buildCacheData c tot analysis now) :=
  ⟨rfl, rfl, rfl, rfl⟩

theorem initial_cacheConsistent : cacheConsistent initialAnalysisCache := by
  intro c d hd
  simp [initialAnalysisCache] at hd

theorem runFreshAnalysis_consistent (raw : Category → CategoryState)
    (cache : Category → AnalysisCacheEntry) (c : Category) (now : Nat)
    (o : Except String AnalysisResult) (hinv : cacheConsistent cache) :
    (∀ d st, (runFreshAnalysis raw cache c now o).1 = .ok d st → summaryConsistent d) ∧
    cacheConsistent (runFreshAnalysis raw cache c now o).2 := by
  unfold runFreshAnalysis
  by_cases h : (cache c).isAnalyzing
  · refine ⟨?_, ?_⟩
    · intro d st hd
      simp [h] at hd
    · simpa [h] using hinv
  · cases o with
    | ok analysis =>
      refine ⟨?_, ?_⟩
      · intro d st hd
        simp [h] at hd
        exact hd.1 ▸ buildCacheData_consistent c (raw c).articles.length analysis now
      · intro c' d hd
        simp only [h, Bool.false_eq_true, if_false] at hd
        by_cases hcc : c' = c
        · subst hcc
          rw [if_pos rfl] at hd
          simp at hd
          exact hd ▸ buildCacheData_consistent c' (raw c').articles.length analysis now
        · rw [if_neg hcc] at hd
          exact hinv c' d hd
    | error msg =>
      refine ⟨?_, ?_⟩
      · intro d st hd
        simp [h] at hd
      · intro c' d hd
        simp only [h, Bool.false_eq_true, if_false] at hd
        by_cases hcc : c' = c
        · subst hcc
          rw [if_pos rfl] at hd
          simp at hd
          exact hinv c' d hd
        · rw [if_neg hcc] at hd
          exact hinv c' d hd

/-- Six distinct technology articles, all annotated positively in the
concrete scenario below. -/
def sixArticles : List Article :=
  (List.range 6).map (fun i =>
    { category := .technology, title := "story", content := "body",
      url := "https://example.com/" ++ toString i, source := "feed", timestamp := i })

/-- A parsed annotation with a strongly positive score. -/
def positiveParsed : ParsedAnalysis :=
  { summary := some "great news", sentiment := some "positive", bias := some "none",
    mood := some "happy", sentiment_score := some halfQ, bias_level := some 0,
    manipulative_score := some 0 }

/-- The analysis of the six positive articles: all six are annotated, but the
positive bucket is capped at 5. -/
def sixAnalysis : AnalysisResult :=
  analyzeArticles sixArticles (fun _ => .jsonValue positiveParsed)

/-- The payload built from that analysis over the six retained articles. -/
def sixData : CacheData := buildCacheData .technology sixArticles.length sixAnalysis 0

/-- C9: under the invariant that every cached payload is summary-consistent,
every 200 response body of the handler has `positive_count`,
`negative_count`, `neutral_count` equal to the lengths of the corresponding
article lists and `analyzed_articles` equal to their sum, and the invariant
is preserved; moreover, on a concrete six-article scenario,
`analyzed_articles` is strictly below both the number of articles actually
annotated and `total_articles`, because each bucket is capped at 5. -/
theorem summary_counts_consistent (raw : Category → CategoryState)
    (cache : Category → AnalysisCacheEntry) (s : String) (now : Nat)
    (o : Except String AnalysisResult) (hinv : cacheConsistent cache) :
    (∀ d st, (getArticlesByCategory raw cache s now o).1 = .ok d st →
      summaryConsistent d) ∧
    cacheConsistent (getArticlesByCategory raw cache s now o).2 ∧
    sixData.summary.analyzed_articles <
      (sixArticles.map (fun a => analyzeSentiment a (.jsonValue positiveParsed))).length ∧
    sixData.summary.analyzed_articles < sixData.summary.total_articles := by
  have hres : ∀ d st, (getArticlesByCategory raw cache s now o).1 = .ok d st →
      summaryConsistent d := by
    intro d st hd
    unfold getArticlesByCategory at hd
    split at hd
    · split at hd <;> simp at hd
    · next c' hp =>
      split at hd
      · simp at hd
      · split at hd
        · simp at hd
        · split at hd
          · simp at hd
          · split at hd
            · next d0 hd0 =>
              split at hd
              · simp at hd
                exact hd.1 ▸ hinv c' d0 hd0
              · exact (runFreshAnalysis_consistent raw cache c' now o hinv).1 d st hd
            · exact (runFreshAnalysis_consistent raw cache c' now o hinv).1 d st hd
  have hcache : cacheConsistent (getArticlesByCategory raw cache s now o).2 := by
    unfold getArticlesByCategory
    split
    · split <;> simpa using hinv
    · next c' hp =>
      split
      · simpa using hinv
      · split
        · simpa using hinv
        · split
          · simpa using hinv
          · split
            · split
              · simpa using hinv
              · exact (runFreshAnalysis_consistent raw cache c' now o hinv).2
            · exact (runFreshAnalysis_consistent raw cache c' now o hinv).2
  exact ⟨hres, hcache, by decide, by decide⟩

/-- C9 witness: the fresh 200 payload of a concrete request is
summary-consistent, and the concrete six-positive scenario shows
`analyzed_articles` strictly below both the annotated count and
`total_articles`. -/
theorem summary_counts_consistent_witness :
    summaryConsistent (buildCacheData .technology 1 techAnalysis 2000) ∧
    sixData.summary.analyzed_articles <
      (sixArticles.map (fun a => analyzeSentiment a (.jsonValue positiveParsed))).length ∧
    sixData.summary.analyzed_articles < sixData.summary.total_articles := by
  have h := summary_counts_consistent rawTechLoaded initialAnalysisCache "technology"
    2000 (.ok techAnalysis) initial_cacheConsistent
  exact ⟨h.1 (buildCacheData .technology 1 techAnalysis 2000)
      { from_cache := false, age := none, expires_in := none, just_analyzed := some true }
      (by decide),
    h.2.2.1, h.2.2.2⟩

/-! ### C10: case-insensitive category lookup and the in-operator gap -/

/-- C10 (amended): the behaviour of the handler depends on the category path
parameter only through its lowercasing — two spellings with the same
lowercase form get identical responses and cache effects, so mixed-case
spellings of a valid category are accepted; a parameter whose lowercase form
is neither a known category nor one of the two all-lowercase inherited
object keys gets the 404 taxonomy error listing the valid categories; a
parameter whose lowercase form is one of those inherited keys instead passes
the in-operator check and falls through to the no-articles 404 without the
category list; and a parameter whose lowercase form IS a known category is
never answered with the taxonomy error. -/
theorem handler_case_insensitive (raw : Category → CategoryState)
    (cache : Category → AnalysisCacheEntry) (now : Nat)
    (o : Except String AnalysisResult) :
    (∀ s₁ s₂, jsToLower s₁ = jsToLower s₂ →
      getArticlesByCategory raw cache s₁ now o =
        getArticlesByCategory raw cache s₂ now o) ∧
    (∀ s, parseCategory (jsToLower s) = none → isInheritedKey (jsToLower s) = false →
      getArticlesByCategory raw cache s now o = (.categoryNotFound allCategories, cache)) ∧
    (∀ s, parseCategory (jsToLower s) = none → isInheritedKey (jsToLower s) = true →
      getArticlesByCategory raw cache s now o = (.noArticles (jsToLower s), cache)) ∧
    (∀ s c, parseCategory (jsToLower s) = some c →
      ∀ avail, (getArticlesByCategory raw cache s now o).1 ≠ .categoryNotFound avail) := by
  refine ⟨?_, ?_, ?_, ?_⟩
  · intro s₁ s₂ h
    unfold getArticlesByCategory
    rw [h]
  · intro s h hk
    simp [getArticlesByCategory, h, hk]
  · intro s h hk
    simp [getArticlesByCategory, h, hk]
  · intro s c h avail hcontra
    unfold getArticlesByCategory at hcontra
    split at hcontra
    · next hp =>
      rw [h] at hp
      exact Option.noConfusion hp
    · next c' hp =>
      split at hcontra
      · simp at hcontra
      · split at hcontra
        · simp at hcontra
        · split at hcontra
          · simp at hcontra
          · split at hcontra
            · next d hd =>
              split at hcontra
              · simp at hcontra
              · rcases runFreshAnalysis_shape raw cache c' now o with
                  hs | ⟨d', st, hs⟩ | ⟨msg, hs⟩ <;> rw [hs] at hcontra <;> simp at hcontra
            · rcases runFreshAnalysis_shape raw cache c' now o with
                hs | ⟨d', st, hs⟩ | ⟨msg, hs⟩ <;> rw [hs] at hcontra <;> simp at hcontra

/-- C10 witness: a mixed-case spelling of a known category behaves exactly as
the lowercase one; an unknown name yields the taxonomy 404; a mixed-case
inherited key falls through to the no-articles 404; a known mixed-case name
is not answered with the taxonomy 404. -/
theorem handler_case_insensitive_witness :
    getArticlesByCategory rawTechLoaded cacheWithTech "TeCHNoLoGy" 2000 (.ok techAnalysis)
      = getArticlesByCategory rawTechLoaded cacheWithTech "technology" 2000
          (.ok techAnalysis) ∧
    getArticlesByCategory rawTechLoaded cacheWithTech "Sports" 2000 (.ok techAnalysis)
      = (.categoryNotFound allCategories, cacheWithTech) ∧
    getArticlesByCategory rawTechLoaded cacheWithTech "__Proto__" 2000 (.ok techAnalysis)
      = (.noArticles "__proto__", cacheWithTech) ∧
    (getArticlesByCategory rawTechLoaded cacheWithTech "Breaking" 2000
        (.ok techAnalysis)).1 ≠ .categoryNotFound allCategories := by
  have h := handler_case_insensitive rawTechLoaded cacheWithTech 2000 (.ok techAnalysis)
  refine ⟨h.1 "TeCHNoLoGy" "technology" (by decide),
    h.2.1 "Sports" (by decide) (by decide),
    ?_,
    h.2.2.2 "Breaking" .breaking (by decide) allCategories⟩
  have h3 := h.2.2.1 "__Proto__" (by decide) (by decide)
  simpa using h3

/-- C10 counterexample: the parameter constructor is no known category after
lowercasing, yet the handler does NOT answer with the taxonomy 404 listing
the valid categories — the name passes the JS in-operator check through the
prototype chain and ends at the no-articles 404 that echoes the parameter
and lists no categories. This refutes the clause that any name not matching
a known category after lowercasing yields the taxonomy error. -/
theorem handler_inherited_key_cex :
    parseCategory (jsToLower "constructor") = none ∧
    (getArticlesByCategory rawTechLoaded cacheWithTech "constructor" 2000
        (.ok techAnalysis)).1 = .noArticles "constructor" ∧
    (getArticlesByCategory rawTechLoaded cacheWithTech "constructor" 2000
        (.ok techAnalysis)).1 ≠ .categoryNotFound allCategories := by
  decide

end NewsAnalyzer
